import Mathlib

/-!
Shallow embedding of the Vulkano frame-pipelining and swapchain-lifecycle
subsystem: FrameSynchronizer and SwapchainManager, translated from
Source/FrameSynchronizer.cpp, Source/SwapchainManager.cpp and the headers
under Include/Vulkano.  Vulkan driver calls are external: every fallible
driver call takes its outcome from an explicit oracle or script argument,
and GPU object allocation is tracked by a device value recording the set of
live handles, so that leak freedom is a provable statement.
-/

namespace Vulkano

/-- Bool view of an Except result (std::expected has a bool conversion). -/
def exceptOk {ε α : Type} : Except ε α → Bool
  | .ok _ => true
  | .error _ => false

/-- Minimal model of VulkanContext: the two handle-presence flags inspected by
IsInitialized (VulkanContext.hpp lines 70-80). -/
structure VulkanContext where
  hasInstance : Bool := false
  hasDevice : Bool := false
deriving DecidableEq, Repr

def VulkanContext.IsInitialized (c : VulkanContext) : Bool :=
  c.hasInstance && c.hasDevice

/-- Entry guard shared by both components:
`!context || !context->IsInitialized()`. -/
def ctxOk : Option VulkanContext → Bool
  | none => false
  | some c => c.IsInitialized

/-- Device-side allocation model: GPU object creation hands out strictly
increasing handle ids and records the set of live, not yet destroyed,
handles. -/
structure Device where
  nextId : Nat := 0
  live : Finset Nat := ∅
deriving DecidableEq

def Device.create (d : Device) : Nat × Device :=
  (d.nextId, { nextId := d.nextId + 1, live := insert d.nextId d.live })

def Device.destroy (d : Device) (h : Nat) : Device :=
  { d with live := d.live.erase h }

/-- Command buffers are allocated out of a command pool and are freed when the
pool is destroyed (source comment in DestroyFrameContext), so a buffer gets
an id but is not tracked as an independently live object. -/
def Device.allocCommandBuffer (d : Device) : Nat × Device :=
  (d.nextId, { d with nextId := d.nextId + 1 })

/-- Well-formedness: every live handle was previously handed out. -/
def Device.WF (d : Device) : Prop :=
  ∀ h ∈ d.live, h < d.nextId

/-- FrameContext (FrameSynchronizer.hpp lines 17-23).  The extra field
`fenceSignaled` is the device-side signaled state of `inFlightFence`; fences
are created signaled (VK_FENCE_CREATE_SIGNALED_BIT). -/
structure FrameContext where
  inFlightFence : Option Nat := none
  imageAvailableSemaphore : Option Nat := none
  renderFinishedSemaphore : Option Nat := none
  commandPool : Option Nat := none
  commandBuffer : Option Nat := none
  fenceSignaled : Bool := false
deriving DecidableEq, Repr

/-- Outcomes of the five fallible driver calls made by CreateFrameContext. -/
structure SlotOracle where
  fenceOk : Bool := true
  sem1Ok : Bool := true
  sem2Ok : Bool := true
  poolOk : Bool := true
  cmdBufOk : Bool := true
deriving DecidableEq, Repr

def SlotOracle.allOk : SlotOracle := {}

/-- FrameSynchronizer::CreateFrameContext (FrameSynchronizer.cpp lines
95-151): create fence, two semaphores, command pool, then allocate the
command buffer; on any failure, every object created earlier in the call is
destroyed before returning the error. -/
def CreateFrameContext (o : SlotOracle) (d : Device) :
    Except String FrameContext × Device :=
  if o.fenceOk = false then (.error "Failed to create fence", d)
  else
    let p0 := d.create
    let fence := p0.1
    let d1 := p0.2
    if o.sem1Ok = false then
      (.error "Failed to create image available semaphore", d1.destroy fence)
    else
      let p1 := d1.create
      let sem1 := p1.1
      let d2 := p1.2
      if o.sem2Ok = false then
        (.error "Failed to create render finished semaphore",
          (d2.destroy fence).destroy sem1)
      else
        let p2 := d2.create
        let sem2 := p2.1
        let d3 := p2.2
        if o.poolOk = false then
          (.error "Failed to create command pool",
            ((d3.destroy fence).destroy sem1).destroy sem2)
        else
          let p3 := d3.create
          let pool := p3.1
          let d4 := p3.2
          if o.cmdBufOk = false then
            (.error "Failed to allocate command buffer",
              (((d4.destroy fence).destroy sem1).destroy sem2).destroy pool)
          else
            let p4 := d4.allocCommandBuffer
            (.ok { inFlightFence := some fence,
                   imageAvailableSemaphore := some sem1,
                   renderFinishedSemaphore := some sem2,
                   commandPool := some pool,
                   commandBuffer := some p4.1,
                   fenceSignaled := true }, p4.2)

/-- Frame context built by a fully successful CreateFrameContext whose first
handed-out handle id is n. -/
def builtFrame (n : Nat) : FrameContext :=
  { inFlightFence := some n,
    imageAvailableSemaphore := some (n + 1),
    renderFinishedSemaphore := some (n + 2),
    commandPool := some (n + 3),
    commandBuffer := some (n + 4),
    fenceSignaled := true }

/-- Handles owned by a frame context, the ones DestroyFrameContext releases. -/
def FrameContext.hs (f : FrameContext) : Finset Nat :=
  f.commandPool.toFinset ∪ f.renderFinishedSemaphore.toFinset ∪
    f.imageAvailableSemaphore.toFinset ∪ f.inFlightFence.toFinset

/-- FrameSynchronizer::DestroyFrameContext (lines 153-179): destroy command
pool (which frees the command buffer), render finished semaphore, image
available semaphore, fence, each when not null. -/
def DestroyFrameContext (d : Device) (f : FrameContext) : Device :=
  let d1 := match f.commandPool with
    | some h => d.destroy h
    | none => d
  let d2 := match f.renderFinishedSemaphore with
    | some h => d1.destroy h
    | none => d1
  let d3 := match f.imageAvailableSemaphore with
    | some h => d2.destroy h
    | none => d2
  match f.inFlightFence with
  | some h => d3.destroy h
  | none => d3

/-- FrameSynchronizer members (FrameSynchronizer.hpp lines 104-106). -/
structure FrameSynchronizer where
  mContext : Option VulkanContext := none
  mFrames : List FrameContext := []
  mCurrentFrameIndex : Nat := 0
deriving DecidableEq, Repr

def FrameSynchronizer.IsInitialized (s : FrameSynchronizer) : Bool :=
  s.mContext.isSome && !s.mFrames.isEmpty

def FrameSynchronizer.GetFramesInFlight (s : FrameSynchronizer) : Nat :=
  s.mFrames.length

def FrameSynchronizer.GetCurrentFrameIndex (s : FrameSynchronizer) : Nat :=
  s.mCurrentFrameIndex

/-- GetCurrentFrame: unchecked vector access mFrames[mCurrentFrameIndex];
reachable states keep the index in bounds while initialized. -/
def FrameSynchronizer.GetCurrentFrame (s : FrameSynchronizer) : FrameContext :=
  s.mFrames.getD s.mCurrentFrameIndex {}

def destroyFrames (d : Device) (fs : List FrameContext) : Device :=
  fs.foldl DestroyFrameContext d

/-- All handles owned by a list of frame contexts. -/
def framesHs : List FrameContext → Finset Nat
  | [] => ∅
  | f :: rest => f.hs ∪ framesHs rest

/-- Creation loop of FrameSynchronizer::Initialize (lines 24-33): build one
frame per oracle entry; on failure destroy the frames already built, in
creation order, and clear the list. -/
def initLoop (d : Device) (acc : List FrameContext) :
    List SlotOracle → Except String Unit × List FrameContext × Device
  | [] => (.ok (), acc, d)
  | o :: rest =>
    let r := CreateFrameContext o d
    match r.1 with
    | .error e => (.error e, [], destroyFrames r.2 acc)
    | .ok f => initLoop r.2 (acc ++ [f]) rest

/-- FrameSynchronizer::Initialize (lines 13-37).  The source keeps mContext
set when a slot fails to build; only mFrames is cleared. -/
def FrameSynchronizer.Initialize (s : FrameSynchronizer)
    (context : Option VulkanContext) (framesInFlight : Nat)
    (oracle : Nat → SlotOracle) (d : Device) :
    Except String Unit × FrameSynchronizer × Device :=
  if ctxOk context = false then
    (.error "Invalid or uninitialized context", s, d)
  else if framesInFlight < 1 || framesInFlight > 4 then
    (.error "Frames in flight must be between 1 and 4", s, d)
  else
    let r := initLoop d [] ((List.range framesInFlight).map oracle)
    match r.1 with
    | .error e =>
      (.error e, { s with mContext := context, mFrames := [] }, r.2.2)
    | .ok _ =>
      let s2 :=
        { s with mContext := context, mFrames := r.2.1, mCurrentFrameIndex := 0 }
      (.ok (), s2, r.2.2)

/-- FrameSynchronizer::Shutdown (lines 39-51). -/
def FrameSynchronizer.Shutdown (s : FrameSynchronizer) (d : Device) :
    FrameSynchronizer × Device :=
  if s.mContext.isNone then (s, d)
  else ({ s with mContext := none, mFrames := [], mCurrentFrameIndex := 0 },
        destroyFrames d s.mFrames)

/-- Outcome of one vkWaitForFences call, as delivered by the GPU within the
timeout: the fence got signaled, the wait timed out, or a device error. -/
inductive WaitOutcome where
  | signaled
  | timeout
  | deviceError
deriving DecidableEq, Repr

def UINT64_MAX : Nat := 2 ^ 64 - 1

def setSlotSignaled (s : FrameSynchronizer) (b : Bool) : FrameSynchronizer :=
  let f := s.GetCurrentFrame
  { s with mFrames :=
      s.mFrames.set s.mCurrentFrameIndex { f with fenceSignaled := b } }

/-- FrameSynchronizer::WaitForFrame (lines 75-88): vkWaitForFences succeeds if
the fence is signaled already or the oracle delivers the GPU signal within
the timeout; a timed out wait leaves the fence unchanged. -/
def FrameSynchronizer.WaitForFrame (s : FrameSynchronizer) (timeout : Nat)
    (w : WaitOutcome) : Except String Unit × FrameSynchronizer :=
  if s.IsInitialized = false then
    (.error "Frame synchronizer not initialized", s)
  else
    let observed := if s.GetCurrentFrame.fenceSignaled then WaitOutcome.signaled else w
    match observed with
    | .signaled => (.ok (), setSlotSignaled s true)
    | .timeout => (.error "Timeout waiting for fence", s)
    | .deviceError => (.error "Failed to wait for fence", s)

/-- FrameSynchronizer::ResetFence (lines 90-93): vkResetFences unsignals the
current fence.  The source only calls it while initialized. -/
def FrameSynchronizer.ResetFence (s : FrameSynchronizer) : FrameSynchronizer :=
  setSlotSignaled s false

/-- Driver outcomes consumed by one BeginFrame call: the fence wait outcome
and the vkResetCommandBuffer outcome. -/
structure BeginOracle where
  wait : WaitOutcome := .signaled
  cmdResetOk : Bool := true
deriving DecidableEq, Repr

/-- FrameSynchronizer::BeginFrame (lines 53-69): initialization check, wait on
the current fence via WaitForFrame, reset the fence, reset the command
buffer. -/
def FrameSynchronizer.BeginFrame (s : FrameSynchronizer) (o : BeginOracle) :
    Except String Unit × FrameSynchronizer :=
  if s.IsInitialized = false then
    (.error "Frame synchronizer not initialized", s)
  else
    let r := s.WaitForFrame UINT64_MAX o.wait
    match r.1 with
    | .error e => (.error e, r.2)
    | .ok _ =>
      let s2 := r.2.ResetFence
      if o.cmdResetOk then (.ok (), s2)
      else (.error "Failed to reset command buffer", s2)

/-- FrameSynchronizer::EndFrame (lines 71-73): the source computes
(mCurrentFrameIndex + 1) % GetFramesInFlight(); with zero frames in flight
the modulus is zero, which is undefined behavior in C++, modelled as none. -/
def FrameSynchronizer.EndFrame (s : FrameSynchronizer) :
    Option FrameSynchronizer :=
  if s.GetFramesInFlight = 0 then none
  else some { s with mCurrentFrameIndex :=
    (s.mCurrentFrameIndex + 1) % s.GetFramesInFlight }

/-- One frame-loop operation on an initialized synchronizer, carrying the
driver outcomes it consumes. -/
inductive LoopOp where
  | beginFrame (o : BeginOracle)
  | waitForFrame (timeout : Nat) (w : WaitOutcome)
  | resetFence
  | endFrame
deriving DecidableEq, Repr

def loopStep (s : FrameSynchronizer) : LoopOp → Option FrameSynchronizer
  | .beginFrame o => some (s.BeginFrame o).2
  | .waitForFrame t w => some (s.WaitForFrame t w).2
  | .resetFence => some s.ResetFence
  | .endFrame => s.EndFrame

def runLoop (s : FrameSynchronizer) : List LoopOp → Option FrameSynchronizer
  | [] => some s
  | op :: rest =>
    match loopStep s op with
    | none => none
    | some s1 => runLoop s1 rest

def countEnd : List LoopOp → Nat
  | [] => 0
  | .endFrame :: rest => countEnd rest + 1
  | .beginFrame _ :: rest => countEnd rest
  | .waitForFrame _ _ :: rest => countEnd rest
  | .resetFence :: rest => countEnd rest

/-! Swapchain side.  Vulkan enum values used by the configuration defaults
(Types.hpp lines 49-54) are carried as their numeric codes. -/

def VK_PRESENT_MODE_MAILBOX_KHR : Nat := 1
def VK_PRESENT_MODE_FIFO_KHR : Nat := 2
def VK_FORMAT_UNDEFINED : Nat := 0
def VK_FORMAT_B8G8R8A8_UNORM : Nat := 44
def VK_COLOR_SPACE_SRGB_NONLINEAR_KHR : Nat := 0

/-- SwapchainConfig (Types.hpp lines 49-54). -/
structure SwapchainConfig where
  preferredPresentMode : Nat := VK_PRESENT_MODE_MAILBOX_KHR
  preferredFormat : Nat := VK_FORMAT_B8G8R8A8_UNORM
  preferredColorSpace : Nat := VK_COLOR_SPACE_SRGB_NONLINEAR_KHR
  minImageCount : Nat := 3
deriving DecidableEq, Repr

/-- Result of one vkb::SwapchainBuilder::build negotiation: whether it
succeeded and, when it did, the new swapchain handle and the negotiated
format, color space, present mode and extent. -/
structure BuildOutcome where
  buildOk : Bool := true
  handle : Nat := 0
  format : Nat := VK_FORMAT_UNDEFINED
  colorSpace : Nat := VK_COLOR_SPACE_SRGB_NONLINEAR_KHR
  presentMode : Nat := VK_PRESENT_MODE_FIFO_KHR
  extentW : Nat := 0
  extentH : Nat := 0
deriving DecidableEq, Repr

/-- Driver script for one Initialize or Recreate call: the build outcome,
whether get_images and get_image_views succeed, the image handles returned,
and the base id for the created views (get_image_views creates exactly one
view per swapchain image). -/
structure SwapScript where
  build : BuildOutcome := {}
  imagesOk : Bool := true
  images : List Nat := []
  viewsOk : Bool := true
  viewBase : Nat := 100
deriving DecidableEq, Repr

/-- Observable swapchain lifecycle events, in the order the calls are made,
used to state the recreate-ordering and no-leak claims. -/
inductive SwapEvent where
  | waitIdle
  | destroyImageViews
  | hintOld (h : Nat)
  | buildNew (h : Nat)
  | destroyOld (h : Nat)
  | getImages
  | createViews
deriving DecidableEq, Repr

/-- Set of swapchains alive after a list of lifecycle events, starting from
the given initially alive handles. -/
def liveAfterEvents (init : List Nat) : List SwapEvent → List Nat
  | [] => init
  | e :: rest =>
    let next := match e with
      | .buildNew h => h :: init
      | .destroyOld h => init.erase h
      | _ => init
    liveAfterEvents next rest

/-- Event a occurs strictly before event b in the trace. -/
def eventBefore (tr : List SwapEvent) (a b : SwapEvent) : Prop :=
  ∃ i j, i < j ∧ tr.get? i = some a ∧ tr.get? j = some b

/-- SwapchainManager members (SwapchainManager.hpp lines 111-127).
`vkbSwapchain` is the pimpl-held vkb::Swapchain object, carrying the same
handle as mSwapchain while it exists. -/
structure SwapchainManager where
  mContext : Option VulkanContext := none
  mSurface : Option Nat := none
  mSwapchain : Option Nat := none
  mFormat : Nat := VK_FORMAT_UNDEFINED
  mColorSpace : Nat := VK_COLOR_SPACE_SRGB_NONLINEAR_KHR
  mExtent : Nat × Nat := (0, 0)
  mPresentMode : Nat := VK_PRESENT_MODE_FIFO_KHR
  mImages : List Nat := []
  mImageViews : List Nat := []
  mConfig : SwapchainConfig := {}
  vkbSwapchain : Option Nat := none
deriving DecidableEq, Repr

def SwapchainManager.IsInitialized (s : SwapchainManager) : Bool :=
  s.mSwapchain.isSome

def SwapchainManager.GetImageCount (s : SwapchainManager) : Nat :=
  s.mImages.length

/-- GetImageView (SwapchainManager.hpp lines 96-98): unchecked
mImageViews[index]; an out of bounds index is undefined behavior, modelled
as none. -/
def SwapchainManager.GetImageView (s : SwapchainManager) (index : Nat) :
    Option Nat :=
  s.mImageViews.get? index

def SwapchainManager.GetSwapchain (s : SwapchainManager) : Option Nat :=
  s.mSwapchain

/-- The views get_image_views creates: one view per swapchain image. -/
def viewsFor (base : Nat) (images : List Nat) : List Nat :=
  (List.range images.length).map (fun i => base + i)

/-- SwapchainManager::Initialize (SwapchainManager.cpp lines 24-66).  On a
get_images or CreateImageViews failure the already built swapchain stays in
the pimpl; the source issues no destroy before returning the error. -/
def SwapchainManager.Initialize (s : SwapchainManager)
    (context : Option VulkanContext) (surface : Option Nat)
    (width height : Nat) (config : SwapchainConfig) (script : SwapScript) :
    Except String Unit × SwapchainManager × List SwapEvent :=
  if ctxOk context = false then
    (.error "Invalid or uninitialized context", s, [])
  else if surface.isNone then
    (.error "Invalid surface provided", s, [])
  else if width == 0 || height == 0 then
    (.error "Invalid swapchain dimensions", s, [])
  else
    let s1 := { s with mContext := context, mSurface := surface, mConfig := config }
    if script.build.buildOk = false then
      (.error "Failed to create swapchain", s1, [])
    else
      let h := script.build.handle
      let s2 :=
        { s1 with vkbSwapchain := some h, mSwapchain := some h,
                  mFormat := script.build.format,
                  mColorSpace := script.build.colorSpace,
                  mExtent := (script.build.extentW, script.build.extentH),
                  mPresentMode := script.build.presentMode }
      if script.imagesOk = false then
        (.error "Failed to get swapchain images", s2, [SwapEvent.buildNew h])
      else
        let s3 := { s2 with mImages := script.images }
        if script.viewsOk = false then
          (.error "Failed to create swapchain image views", s3,
            [SwapEvent.buildNew h, SwapEvent.getImages])
        else
          (.ok (), { s3 with mImageViews := viewsFor script.viewBase s3.mImages },
            [SwapEvent.buildNew h, SwapEvent.getImages, SwapEvent.createViews])

/-- SwapchainManager::Recreate (SwapchainManager.cpp lines 68-114): only the
mContext null check and the dimension check guard it; it waits for idle,
destroys the old views, builds the replacement passing the old vkb swapchain
as a hint when present, destroys the old swapchain only after the build
succeeded, then refetches images and rebuilds views. -/
def SwapchainManager.Recreate (s : SwapchainManager) (width height : Nat)
    (script : SwapScript) :
    Except String Unit × SwapchainManager × List SwapEvent :=
  if s.mContext.isNone then (.error "Context not set", s, [])
  else if width == 0 || height == 0 then
    (.error "Invalid swapchain dimensions", s, [])
  else
    let s1 := { s with mImageViews := [] }
    let hintTr : List SwapEvent := match s.vkbSwapchain with
      | some old => [.hintOld old]
      | none => []
    let tr := [SwapEvent.waitIdle, SwapEvent.destroyImageViews] ++ hintTr
    if script.build.buildOk = false then
      (.error "Failed to recreate swapchain", s1, tr)
    else
      let h := script.build.handle
      let destroyTr : List SwapEvent := match s.vkbSwapchain with
        | some old => [.destroyOld old]
        | none => []
      let tr2 := tr ++ [SwapEvent.buildNew h] ++ destroyTr
      let s2 :=
        { s1 with vkbSwapchain := some h, mSwapchain := some h,
                  mFormat := script.build.format,
                  mColorSpace := script.build.colorSpace,
                  mExtent := (script.build.extentW, script.build.extentH),
                  mPresentMode := script.build.presentMode }
      if script.imagesOk = false then
        (.error "Failed to get swapchain images", s2, tr2)
      else
        let s3 := { s2 with mImages := script.images }
        if script.viewsOk = false then
          (.error "Failed to create swapchain image views", s3,
            tr2 ++ [SwapEvent.getImages])
        else
          (.ok (), { s3 with mImageViews := viewsFor script.viewBase s3.mImages },
            tr2 ++ [SwapEvent.getImages, SwapEvent.createViews])

/-- Driver outcome of one vkAcquireNextImageKHR call. -/
inductive AcqOutcome where
  | success (idx : Nat)
  | suboptimal (idx : Nat)
  | outOfDate
  | errorOther
deriving DecidableEq, Repr

/-- SwapchainManager::AcquireNextImage (lines 116-138): a const method; it
returns the image index on VK_SUCCESS and also on VK_SUBOPTIMAL_KHR, a
recreate-needed error on VK_ERROR_OUT_OF_DATE_KHR, and a plain failure
otherwise.  It never touches the swapchain state. -/
def SwapchainManager.AcquireNextImage (s : SwapchainManager)
    (signalSemaphore : Nat) (timeout : Nat) (o : AcqOutcome) :
    Except String Nat × SwapchainManager :=
  if s.mContext.isNone || s.mSwapchain.isNone then
    (.error "Swapchain not initialized", s)
  else
    match o with
    | .success idx => (.ok idx, s)
    | .suboptimal idx => (.ok idx, s)
    | .outOfDate => (.error "Swapchain out of date - needs recreation", s)
    | .errorOther => (.error "Failed to acquire swapchain image", s)

/-- Driver outcome of one vkQueuePresentKHR call. -/
inductive PresentOutcome where
  | success
  | suboptimal
  | outOfDate
  | errorOther
deriving DecidableEq, Repr

/-- SwapchainManager::Present (lines 140-161): const; both
VK_ERROR_OUT_OF_DATE_KHR and VK_SUBOPTIMAL_KHR map to the recreate-needed
error. -/
def SwapchainManager.Present (s : SwapchainManager) (imageIndex : Nat)
    (waitSemaphore : Nat) (o : PresentOutcome) :
    Except String Unit × SwapchainManager :=
  if s.mContext.isNone || s.mSwapchain.isNone then
    (.error "Swapchain not initialized", s)
  else
    match o with
    | .success => (.ok (), s)
    | .suboptimal => (.error "Swapchain out of date - needs recreation", s)
    | .outOfDate => (.error "Swapchain out of date - needs recreation", s)
    | .errorOther => (.error "Failed to present swapchain image", s)

/-- SwapchainManager::Shutdown (lines 163-175): destroys views then the
swapchain and clears the image list, but does not clear mContext. -/
def SwapchainManager.Shutdown (s : SwapchainManager) :
    SwapchainManager × List SwapEvent :=
  if s.mContext.isNone then (s, [])
  else
    let s1 := { s with mImageViews := [] }
    match s.vkbSwapchain with
    | some old =>
      ({ s1 with vkbSwapchain := none, mSwapchain := none, mImages := [] },
        [SwapEvent.destroyImageViews, SwapEvent.destroyOld old])
    | none =>
      ({ s1 with mImages := [] }, [SwapEvent.destroyImageViews])

/-- SwapchainState invariant (spec section 3): one view per image, and both
lists empty while the handle is null. -/
def SwapInv (s : SwapchainManager) : Prop :=
  s.mImageViews.length = s.mImages.length ∧
    (s.mSwapchain = none → s.mImageViews = [] ∧ s.mImages = [])

/-! Concrete fixtures used by witnesses and counterexamples. -/

def ctxGood : VulkanContext := { hasInstance := true, hasDevice := true }

def d0 : Device := {}

def oracleAllOk : Nat → SlotOracle := fun _ => SlotOracle.allOk

/-- Failing oracle: the render finished semaphore creation fails. -/
def oracleSem2Fails : SlotOracle :=
  { sem2Ok := false }

/-- A two-slot synchronizer produced by a fully successful Initialize. -/
def fsReady : FrameSynchronizer :=
  (FrameSynchronizer.Initialize {} (some ctxGood) 2 oracleAllOk d0).2.1

/-- A fully successful swapchain script with three images. -/
def okScript : SwapScript := { build := { handle := 5 }, images := [0, 1, 2] }

/-- A second successful script with a distinct swapchain handle. -/
def okScript2 : SwapScript := { build := { handle := 9 }, images := [3, 4, 5] }

/-- Script whose image view creation fails after a successful build. -/
def badViewsScript : SwapScript :=
  { build := { handle := 7 }, images := [0, 1, 2], viewsOk := false }

/-- A successfully initialized swapchain manager. -/
def swapReady : SwapchainManager :=
  (SwapchainManager.Initialize {} (some ctxGood) (some 1) 800 600 {} okScript).2.1

/-- The manager after Initialize followed by Shutdown: the spec state machine
calls this Uninitialized, and indeed IsInitialized is false, but mContext is
still set. -/
def swapAfterShutdown : SwapchainManager :=
  (SwapchainManager.Shutdown swapReady).1

/-! Helper lemmas. -/

theorem waitForFrame_ok_iff (s : FrameSynchronizer) (t : Nat) (w : WaitOutcome) :
    exceptOk (s.WaitForFrame t w).1 = true ↔
      (s.IsInitialized = true ∧
        (s.GetCurrentFrame.fenceSignaled = true ∨ w = WaitOutcome.signaled)) := by
  unfold FrameSynchronizer.WaitForFrame
  by_cases hinit : s.IsInitialized = false
  · simp [hinit, exceptOk]
  · simp only [Bool.not_eq_false] at hinit
    by_cases hf : s.GetCurrentFrame.fenceSignaled
    · simp [hinit, hf, exceptOk]
    · cases w <;> simp [hinit, hf, exceptOk]

theorem acquire_state_const (s : SwapchainManager) (sem t : Nat)
    (ao : AcqOutcome) : (s.AcquireNextImage sem t ao).2 = s := by
  unfold SwapchainManager.AcquireNextImage
  by_cases hg : (s.mContext.isNone || s.mSwapchain.isNone) = true
  · simp [hg]
  · cases ao <;> simp [hg]

theorem present_state_const (s : SwapchainManager) (i sem : Nat)
    (po : PresentOutcome) : (s.Present i sem po).2 = s := by
  unfold SwapchainManager.Present
  by_cases hg : (s.mContext.isNone || s.mSwapchain.isNone) = true
  · simp [hg]
  · cases po <;> simp [hg]

theorem viewsFor_length (b : Nat) (l : List Nat) :
    (viewsFor b l).length = l.length := by
  simp [viewsFor]

theorem endFrame_some (s : FrameSynchronizer) (h : 0 < s.mFrames.length) :
    s.EndFrame = some { s with mCurrentFrameIndex :=
      (s.mCurrentFrameIndex + 1) % s.mFrames.length } := by
  unfold FrameSynchronizer.EndFrame FrameSynchronizer.GetFramesInFlight
  rw [if_neg (by omega)]

theorem setSlotSignaled_preserves (s : FrameSynchronizer) (b : Bool) :
    (setSlotSignaled s b).mFrames.length = s.mFrames.length ∧
      (setSlotSignaled s b).mCurrentFrameIndex = s.mCurrentFrameIndex := by
  simp [setSlotSignaled]

theorem waitForFrame_preserves (s : FrameSynchronizer) (t : Nat)
    (w : WaitOutcome) :
    (s.WaitForFrame t w).2.mFrames.length = s.mFrames.length ∧
      (s.WaitForFrame t w).2.mCurrentFrameIndex = s.mCurrentFrameIndex := by
  unfold FrameSynchronizer.WaitForFrame
  by_cases hinit : s.IsInitialized = false
  · simp [hinit]
  · cases hobs : (if s.GetCurrentFrame.fenceSignaled then WaitOutcome.signaled
      else w) <;> simp [hinit, hobs, setSlotSignaled]

theorem beginFrame_preserves (s : FrameSynchronizer) (o : BeginOracle) :
    (s.BeginFrame o).2.mFrames.length = s.mFrames.length ∧
      (s.BeginFrame o).2.mCurrentFrameIndex = s.mCurrentFrameIndex := by
  unfold FrameSynchronizer.BeginFrame
  have hw := waitForFrame_preserves s UINT64_MAX o.wait
  by_cases hinit : s.IsInitialized = false
  · simp [hinit]
  · cases hw1 : (s.WaitForFrame UINT64_MAX o.wait).1 with
    | error e => simpa [hinit, hw1] using hw
    | ok u =>
      have hr := setSlotSignaled_preserves (s.WaitForFrame UINT64_MAX o.wait).2 false
      by_cases hc : o.cmdResetOk = true <;>
        simp [hinit, hw1, hc, FrameSynchronizer.ResetFence, hr.1, hr.2, hw.1, hw.2]

/-- Any run of frame-loop operations on a state with a nonempty slot list and
an in-bounds index preserves the slot count and moves the index by the
number of EndFrame calls, modulo the slot count. -/
theorem runLoop_mod (ops : List LoopOp) : ∀ (s s' : FrameSynchronizer),
    0 < s.mFrames.length → s.mCurrentFrameIndex < s.mFrames.length →
    runLoop s ops = some s' →
    s'.mFrames.length = s.mFrames.length ∧
      s'.mCurrentFrameIndex =
        (s.mCurrentFrameIndex + countEnd ops) % s.mFrames.length := by
  induction ops with
  | nil =>
    intro s s' hN hi h
    simp [runLoop] at h
    subst h
    exact ⟨rfl, by rw [countEnd, Nat.add_zero, Nat.mod_eq_of_lt hi]⟩
  | cons op rest ih =>
    intro s s' hN hi h
    cases op with
    | beginFrame o =>
      simp only [runLoop, loopStep] at h
      have hp := beginFrame_preserves s o
      have := ih (s.BeginFrame o).2 s' (by rw [hp.1]; exact hN)
        (by rw [hp.1, hp.2]; exact hi) h
      rw [hp.1, hp.2] at this
      simpa [countEnd] using this
    | waitForFrame t w =>
      simp only [runLoop, loopStep] at h
      have hp := waitForFrame_preserves s t w
      have := ih (s.WaitForFrame t w).2 s' (by rw [hp.1]; exact hN)
        (by rw [hp.1, hp.2]; exact hi) h
      rw [hp.1, hp.2] at this
      simpa [countEnd] using this
    | resetFence =>
      simp only [runLoop, loopStep] at h
      have hp := setSlotSignaled_preserves s false
      have := ih s.ResetFence s'
        (by rw [FrameSynchronizer.ResetFence, hp.1]; exact hN)
        (by rw [FrameSynchronizer.ResetFence, hp.1, hp.2]; exact hi) h
      rw [FrameSynchronizer.ResetFence, hp.1, hp.2] at this
      simpa [countEnd] using this
    | endFrame =>
      simp only [runLoop, loopStep, endFrame_some s hN] at h
      have := ih _ s' (by simpa using hN)
        (by simpa using Nat.mod_lt (s.mCurrentFrameIndex + 1) hN) h
      simp only at this
      refine ⟨this.1, ?_⟩
      rw [this.2, Nat.mod_add_mod, countEnd]
      congr 1
      omega

theorem initLoop_ok_length (os : List SlotOracle) :
    ∀ (d : Device) (acc : List FrameContext),
    exceptOk (initLoop d acc os).1 = true →
    (initLoop d acc os).2.1.length = acc.length + os.length := by
  induction os with
  | nil =>
    intro d acc _
    simp [initLoop]
  | cons o rest ih =>
    intro d acc h
    cases hr : (CreateFrameContext o d).1 with
    | error e =>
      simp [initLoop, hr, exceptOk] at h
    | ok f =>
      simp only [initLoop, hr] at h ⊢
      have := ih (CreateFrameContext o d).2 (acc ++ [f]) h
      rw [this]
      simp
      omega

/-- Facts available after a successful FrameSynchronizer::Initialize from the
fresh state: index zero, exactly framesInFlight slots, context stored, and
the frame count was in range. -/
theorem init_ok_facts (context : Option VulkanContext) (fif : Nat)
    (oracle : Nat → SlotOracle) (d : Device)
    (hok : exceptOk (FrameSynchronizer.Initialize {} context fif oracle d).1 = true) :
    (FrameSynchronizer.Initialize {} context fif oracle d).2.1.mCurrentFrameIndex = 0 ∧
      (FrameSynchronizer.Initialize {} context fif oracle d).2.1.mFrames.length = fif ∧
      1 ≤ fif ∧ fif ≤ 4 ∧
      (FrameSynchronizer.Initialize {} context fif oracle d).2.1.mContext = context := by
  unfold FrameSynchronizer.Initialize at hok ⊢
  by_cases hc : ctxOk context = false
  · rw [if_pos hc] at hok
    simp [exceptOk] at hok
  · rw [if_neg hc] at hok ⊢
    by_cases hf : (fif < 1 || fif > 4) = true
    · rw [if_pos hf] at hok
      simp [exceptOk] at hok
    · rw [if_neg hf] at hok ⊢
      have hrange : 1 ≤ fif ∧ fif ≤ 4 := by
        simp only [Bool.or_eq_true, decide_eq_true_eq, not_or] at hf
        omega
      cases hr : (initLoop d [] ((List.range fif).map oracle)).1 with
      | error e =>
        simp only [hr, exceptOk] at hok
        exact absurd hok Bool.false_ne_true
      | ok u =>
        have hlen := initLoop_ok_length ((List.range fif).map oracle) d []
          (by rw [hr]; rfl)
        simp only [hr]
        refine ⟨trivial, ?_, hrange.1, hrange.2, trivial⟩
        simpa using hlen

theorem d0_WF : Device.WF d0 := by
  intro h hh
  simp [d0] at hh

theorem insert_erase_bound (live : Finset Nat) (n a : Nat)
    (hWF : ∀ x ∈ live, x < n) (ha : n ≤ a) :
    (insert a live).erase a = live := by
  apply Finset.erase_insert
  intro hmem
  exact absurd (hWF a hmem) (by omega)

/-- Per-slot rollback of CreateFrameContext: on failure the set of live
device objects is exactly what it was before the call. -/
theorem createFrameContext_error_live (o : SlotOracle) (d : Device)
    (hWF : Device.WF d)
    (herr : exceptOk (CreateFrameContext o d).1 = false) :
    (CreateFrameContext o d).2.live = d.live := by
  have hWF' : ∀ x ∈ d.live, x < d.nextId := hWF
  unfold CreateFrameContext at herr ⊢
  by_cases h1 : o.fenceOk = false
  · rw [if_pos h1]
  · rw [if_neg h1] at herr ⊢
    by_cases h2 : o.sem1Ok = false
    · rw [if_pos h2]
      simp only [Device.create, Device.destroy]
      exact insert_erase_bound d.live d.nextId d.nextId hWF' le_rfl
    · rw [if_neg h2] at herr ⊢
      by_cases h3 : o.sem2Ok = false
      · rw [if_pos h3]
        simp only [Device.create, Device.destroy]
        rw [Finset.erase_insert_of_ne (show d.nextId + 1 ≠ d.nextId by omega),
          insert_erase_bound d.live d.nextId d.nextId hWF' le_rfl,
          insert_erase_bound d.live d.nextId (d.nextId + 1) hWF' (by omega)]
      · rw [if_neg h3] at herr ⊢
        by_cases h4 : o.poolOk = false
        · rw [if_pos h4]
          simp only [Device.create, Device.destroy]
          rw [Finset.erase_insert_of_ne (show d.nextId + 2 ≠ d.nextId by omega),
            Finset.erase_insert_of_ne (show d.nextId + 1 ≠ d.nextId by omega),
            insert_erase_bound d.live d.nextId d.nextId hWF' le_rfl,
            Finset.erase_insert_of_ne (show d.nextId + 2 ≠ d.nextId + 1 by omega),
            insert_erase_bound d.live d.nextId (d.nextId + 1) hWF' (by omega),
            insert_erase_bound d.live d.nextId (d.nextId + 2) hWF' (by omega)]
        · rw [if_neg h4] at herr ⊢
          by_cases h5 : o.cmdBufOk = false
          · rw [if_pos h5]
            simp only [Device.create, Device.destroy]
            rw [Finset.erase_insert_of_ne (show d.nextId + 3 ≠ d.nextId by omega),
              Finset.erase_insert_of_ne (show d.nextId + 2 ≠ d.nextId by omega),
              Finset.erase_insert_of_ne (show d.nextId + 1 ≠ d.nextId by omega),
              insert_erase_bound d.live d.nextId d.nextId hWF' le_rfl,
              Finset.erase_insert_of_ne (show d.nextId + 3 ≠ d.nextId + 1 by omega),
              Finset.erase_insert_of_ne (show d.nextId + 2 ≠ d.nextId + 1 by omega),
              insert_erase_bound d.live d.nextId (d.nextId + 1) hWF' (by omega),
              Finset.erase_insert_of_ne (show d.nextId + 3 ≠ d.nextId + 2 by omega),
              insert_erase_bound d.live d.nextId (d.nextId + 2) hWF' (by omega),
              insert_erase_bound d.live d.nextId (d.nextId + 3) hWF' (by omega)]
          · rw [if_neg h5] at herr
            simp [exceptOk] at herr

/-- Shape of a successful CreateFrameContext: the five handles are the next
five ids, and exactly fence, semaphores and pool are registered live. -/
theorem createFrameContext_ok (o : SlotOracle) (d : Device)
    (hok : exceptOk (CreateFrameContext o d).1 = true) :
    (CreateFrameContext o d).1 = Except.ok (builtFrame d.nextId) ∧
      (CreateFrameContext o d).2.nextId = d.nextId + 5 ∧
      (CreateFrameContext o d).2.live =
        insert (d.nextId + 3) (insert (d.nextId + 2) (insert (d.nextId + 1)
          (insert d.nextId d.live))) := by
  unfold CreateFrameContext at hok ⊢
  by_cases h1 : o.fenceOk = false
  · rw [if_pos h1] at hok
    simp [exceptOk] at hok
  · rw [if_neg h1] at hok ⊢
    by_cases h2 : o.sem1Ok = false
    · rw [if_pos h2] at hok
      simp [exceptOk] at hok
    · rw [if_neg h2] at hok ⊢
      by_cases h3 : o.sem2Ok = false
      · rw [if_pos h3] at hok
        simp [exceptOk] at hok
      · rw [if_neg h3] at hok ⊢
        by_cases h4 : o.poolOk = false
        · rw [if_pos h4] at hok
          simp [exceptOk] at hok
        · rw [if_neg h4] at hok ⊢
          by_cases h5 : o.cmdBufOk = false
          · rw [if_pos h5] at hok
            simp [exceptOk] at hok
          · rw [if_neg h5]
            simp [Device.create, Device.allocCommandBuffer, builtFrame]

theorem sdiff_sdiff_union (s A B : Finset Nat) :
    (s \ A) \ B = s \ (A ∪ B) := by
  ext x
  simp only [Finset.mem_sdiff, Finset.mem_union]
  tauto

theorem union_sdiff_of_disjoint (A B : Finset Nat) (hd : Disjoint A B) :
    (A ∪ B) \ A = B := by
  ext x
  simp only [Finset.mem_sdiff, Finset.mem_union]
  constructor
  · rintro ⟨h | h, hn⟩
    · exact absurd h hn
    · exact h
  · intro hx
    exact ⟨Or.inr hx, fun hA => (Finset.disjoint_left.mp hd hA) hx⟩

theorem destroyFrameContext_live (d : Device) (f : FrameContext) :
    (DestroyFrameContext d f).live = d.live \ f.hs := by
  obtain ⟨ff, fia, frf, fp, fcb, fsig⟩ := f
  unfold DestroyFrameContext FrameContext.hs
  cases fp <;> cases frf <;> cases fia <;> cases ff <;>
    · ext x
      simp [Device.destroy, Option.toFinset]
      try tauto

theorem framesHs_append (acc : List FrameContext) (f : FrameContext) :
    framesHs (acc ++ [f]) = framesHs acc ∪ f.hs := by
  induction acc with
  | nil => simp [framesHs]
  | cons g rest ih => simp [framesHs, ih, Finset.union_assoc]

theorem destroyFrames_live (acc : List FrameContext) : ∀ d : Device,
    (destroyFrames d acc).live = d.live \ framesHs acc := by
  induction acc with
  | nil =>
    intro d
    simp [destroyFrames, framesHs]
  | cons f rest ih =>
    intro d
    show (destroyFrames (DestroyFrameContext d f) rest).live = _
    rw [ih, destroyFrameContext_live, sdiff_sdiff_union]
    rfl

/-- Rollback across the whole creation loop: whichever slot fails, the frames
list comes back empty and the device live set is exactly the baseline that
was live before Initialize started allocating. -/
theorem initLoop_error_spec (os : List SlotOracle) :
    ∀ (d : Device) (acc : List FrameContext) (base : Finset Nat),
    Device.WF d → d.live = framesHs acc ∪ base →
    Disjoint (framesHs acc) base →
    exceptOk (initLoop d acc os).1 = false →
    (initLoop d acc os).2.1 = [] ∧ (initLoop d acc os).2.2.live = base := by
  induction os with
  | nil =>
    intro d acc base _ _ _ herr
    simp [initLoop, exceptOk] at herr
  | cons o rest ih =>
    intro d acc base hWF hlive hdisj herr
    cases hr : (CreateFrameContext o d).1 with
    | error e =>
      simp only [initLoop, hr] at herr ⊢
      refine ⟨trivial, ?_⟩
      have hel := createFrameContext_error_live o d hWF (by rw [hr]; rfl)
      rw [destroyFrames_live, hel, hlive, union_sdiff_of_disjoint _ _ hdisj]
    | ok f =>
      have hfacts := createFrameContext_ok o d (by rw [hr]; rfl)
      rw [hr] at hfacts
      have hf : f = builtFrame d.nextId := Except.ok.inj hfacts.1
      have hbase : ∀ x ∈ base, x < d.nextId := fun x hx =>
        hWF x (by rw [hlive]; exact Finset.mem_union_right _ hx)
      have hWF' : Device.WF (CreateFrameContext o d).2 := by
        intro x hx
        rw [hfacts.2.2] at hx
        rw [hfacts.2.1]
        simp only [Finset.mem_insert] at hx
        rcases hx with h | h | h | h | h
        · omega
        · omega
        · omega
        · omega
        · have := hWF x h
          omega
      have hlive' : (CreateFrameContext o d).2.live =
          framesHs (acc ++ [f]) ∪ base := by
        rw [hfacts.2.2, framesHs_append, hlive, hf]
        ext x
        simp [FrameContext.hs, Option.toFinset, builtFrame]
        tauto
      have hdisj' : Disjoint (framesHs (acc ++ [f])) base := by
        rw [framesHs_append, Finset.disjoint_union_left]
        refine ⟨hdisj, ?_⟩
        rw [hf, Finset.disjoint_left]
        intro x hx hxb
        have h1 := hbase x hxb
        simp [FrameContext.hs, Option.toFinset, builtFrame] at hx
        omega
      simp only [initLoop, hr] at herr ⊢
      exact ih (CreateFrameContext o d).2 (acc ++ [f]) base hWF' hlive' hdisj' herr

theorem initLoop_allOk (os : List SlotOracle) :
    ∀ (d : Device) (acc : List FrameContext),
    (∀ o ∈ os, o = SlotOracle.allOk) →
    exceptOk (initLoop d acc os).1 = true := by
  induction os with
  | nil =>
    intro d acc _
    rfl
  | cons o rest ih =>
    intro d acc hall
    have ho : o = SlotOracle.allOk := hall o (by simp)
    subst ho
    have hok1 : exceptOk (CreateFrameContext SlotOracle.allOk d).1 = true := rfl
    cases hr : (CreateFrameContext SlotOracle.allOk d).1 with
    | error e =>
      rw [hr] at hok1
      simp [exceptOk] at hok1
    | ok f =>
      simp only [initLoop, hr]
      exact ih _ _ (fun o' ho' => hall o' (List.mem_cons_of_mem _ ho'))

/-! Claim theorems. -/

/-- Claim C1 (backpressure, confirmed): BeginFrame returns success only if
the wait on the current slot completion fence, i.e. the WaitForFrame call it
makes, completed successfully first, and hence only once the fence of the
current slot has been satisfied: it was already signaled, or the GPU
delivered the signal during the wait. -/
theorem beginFrame_backpressure (s : FrameSynchronizer) (o : BeginOracle)
    (h : exceptOk (s.BeginFrame o).1 = true) :
    exceptOk (s.WaitForFrame UINT64_MAX o.wait).1 = true ∧
      (s.GetCurrentFrame.fenceSignaled = true ∨ o.wait = WaitOutcome.signaled) := by
  have hww : exceptOk (s.WaitForFrame UINT64_MAX o.wait).1 = true := by
    unfold FrameSynchronizer.BeginFrame at h
    by_cases hinit : s.IsInitialized = false
    · rw [if_pos hinit] at h
      simp [exceptOk] at h
    · rw [if_neg hinit] at h
      cases hw : (s.WaitForFrame UINT64_MAX o.wait).1 with
      | error e => simp [hw, exceptOk] at h
      | ok u => simp [exceptOk]
  exact ⟨hww, ((waitForFrame_ok_iff s UINT64_MAX o.wait).mp hww).2⟩

/-- Claim C1 witness: a concrete successful BeginFrame on a two-slot ready
synchronizer. -/
theorem beginFrame_backpressure_witness :
    exceptOk (fsReady.BeginFrame {}).1 = true ∧
      (exceptOk (fsReady.WaitForFrame UINT64_MAX ({} : BeginOracle).wait).1 = true ∧
        (fsReady.GetCurrentFrame.fenceSignaled = true ∨
          ({} : BeginOracle).wait = WaitOutcome.signaled)) :=
  ⟨by decide, beginFrame_backpressure fsReady {} (by decide)⟩

/-- Claim C8 counterexample: from the uninitialized state, where no slots are
allocated, EndFrame computes (index + 1) modulo zero, which is undefined
behavior in C++; EndFrame is not a total operation there. -/
theorem endFrame_uninitialized_undefined :
    FrameSynchronizer.EndFrame {} = none := rfl

/-- Claim C8 (amended): from every state with at least one allocated frame
slot, EndFrame is total and only advances the current frame index modulo the
number of frames in flight, leaving every other field unchanged. -/
theorem endFrame_total_when_initialized (s : FrameSynchronizer)
    (h : 0 < s.GetFramesInFlight) :
    s.EndFrame = some { s with mCurrentFrameIndex :=
      (s.mCurrentFrameIndex + 1) % s.GetFramesInFlight } := by
  unfold FrameSynchronizer.EndFrame
  rw [if_neg (by omega)]

/-- Claim C8 witness. -/
theorem endFrame_total_witness :
    0 < fsReady.GetFramesInFlight ∧
      fsReady.EndFrame = some { fsReady with mCurrentFrameIndex :=
        (fsReady.mCurrentFrameIndex + 1) % fsReady.GetFramesInFlight } :=
  ⟨by decide, endFrame_total_when_initialized fsReady (by decide)⟩

/-- Claim C10 (confirmed): GetImageView is an unchecked access into the image
view list; under the invariant that views and images have equal counts, it
yields a view exactly when index < GetImageCount(), and for every index at
or past the number of image views, including any index when the manager is
uninitialized, the access is out of bounds. -/
theorem getImageView_bounds (s : SwapchainManager) (i : Nat)
    (hinv : s.mImageViews.length = s.mImages.length) :
    ((s.GetImageView i).isSome = true ↔ i < s.GetImageCount) ∧
      (s.mImageViews.length ≤ i → s.GetImageView i = none) := by
  unfold SwapchainManager.GetImageView SwapchainManager.GetImageCount
  constructor
  · rw [← hinv, Option.isSome_iff_ne_none, Ne, List.get?_eq_none]
    omega
  · intro hle
    rw [List.get?_eq_none]
    omega

/-- Claim C10 witness: a three-image manager rejects index 5, and the fresh
manager has no view at index 0. -/
theorem getImageView_bounds_witness :
    swapReady.mImageViews.length = swapReady.mImages.length ∧
      (((swapReady.GetImageView 5).isSome = true ↔ 5 < swapReady.GetImageCount) ∧
        (swapReady.mImageViews.length ≤ 5 → swapReady.GetImageView 5 = none)) :=
  ⟨by decide, getImageView_bounds swapReady 5 (by decide)⟩

/-- Claim C6 counterexample: a degraded-but-usable acquire, VK_SUBOPTIMAL_KHR
from the driver, returns exactly the same result as a nominal success; the
caller is not advised to recreate soon, so AcquireNextImage does not
distinguish the third outcome. -/
theorem acquire_suboptimal_indistinguishable :
    swapReady.AcquireNextImage 3 1000 (AcqOutcome.suboptimal 1) =
      swapReady.AcquireNextImage 3 1000 (AcqOutcome.success 1) := rfl

/-- Claim C6 (amended): on an initialized manager AcquireNextImage returns
the image index on a nominal acquire, returns the index identically, with no
distinct signal to the caller, on a degraded-but-usable acquire, fails with
a recreate-needed error on a stale surface, fails plainly on other device
errors, and never recreates the swapchain itself: the manager state is
unchanged by every acquire. -/
theorem acquire_outcomes (s : SwapchainManager) (sem t i : Nat)
    (hc : s.mContext.isNone = false) (hs : s.mSwapchain.isNone = false) :
    (s.AcquireNextImage sem t (AcqOutcome.success i)).1 = .ok i ∧
      (s.AcquireNextImage sem t (AcqOutcome.suboptimal i)).1 = .ok i ∧
      (s.AcquireNextImage sem t AcqOutcome.outOfDate).1 =
        .error "Swapchain out of date - needs recreation" ∧
      (s.AcquireNextImage sem t AcqOutcome.errorOther).1 =
        .error "Failed to acquire swapchain image" ∧
      (∀ ao : AcqOutcome, (s.AcquireNextImage sem t ao).2 = s) := by
  refine ⟨?_, ?_, ?_, ?_, fun ao => acquire_state_const s sem t ao⟩ <;>
    simp [SwapchainManager.AcquireNextImage, hc, hs]

/-- Claim C6 witness. -/
theorem acquire_outcomes_witness :
    swapReady.mContext.isNone = false ∧ swapReady.mSwapchain.isNone = false ∧
      (swapReady.AcquireNextImage 3 1000 (AcqOutcome.success 1)).1 = .ok 1 :=
  ⟨by decide, by decide,
    (acquire_outcomes swapReady 3 1000 1 (by decide) (by decide)).1⟩

/-- Claim C9 counterexample: after Initialize then Shutdown the manager is
Uninitialized per the spec state machine, IsInitialized() is false, yet
Recreate does not fail: Shutdown keeps mContext set, so the guard passes and
a new swapchain is built successfully. -/
theorem recreate_after_shutdown_succeeds :
    swapAfterShutdown.IsInitialized = false ∧
      exceptOk (swapAfterShutdown.Recreate 800 600 okScript2).1 = true := by
  decide

/-- Claim C9 (amended): Recreate fails on zero width or height and when the
context pointer was never set, and from the never-initialized state every
other fallible operation (AcquireNextImage, Present) fails as well; but
Shutdown does not clear mContext, so a manager that was shut down does not
make Recreate fail. -/
theorem swapchain_uninit_guards (s : SwapchainManager) (w h : Nat)
    (script : SwapScript) (sem t i : Nat) (ao : AcqOutcome)
    (po : PresentOutcome) :
    (s.mContext = none → exceptOk (s.Recreate w h script).1 = false) ∧
      ((w = 0 ∨ h = 0) → exceptOk (s.Recreate w h script).1 = false) ∧
      (s.mSwapchain = none → exceptOk (s.AcquireNextImage sem t ao).1 = false) ∧
      (s.mSwapchain = none → exceptOk (s.Present i sem po).1 = false) := by
  refine ⟨?_, ?_, ?_, ?_⟩
  · intro hc
    unfold SwapchainManager.Recreate
    simp [hc, exceptOk]
  · intro hwh
    unfold SwapchainManager.Recreate
    by_cases hc : s.mContext.isNone = true
    · simp [hc, exceptOk]
    · have hz : (w == 0 || h == 0) = true := by
        rcases hwh with h1 | h1 <;> simp [h1]
      simp [hc, hz, exceptOk]
  · intro hs
    unfold SwapchainManager.AcquireNextImage
    simp [hs, exceptOk]
  · intro hs
    unfold SwapchainManager.Present
    simp [hs, exceptOk]

/-- Claim C9 witness: the fresh, never-initialized manager rejects
Recreate. -/
theorem swapchain_uninit_guards_witness :
    ({} : SwapchainManager).mContext = none ∧
      exceptOk (SwapchainManager.Recreate {} 800 600 okScript).1 = false :=
  ⟨rfl, (swapchain_uninit_guards {} 800 600 okScript 0 0 0
    AcqOutcome.outOfDate PresentOutcome.success).1 rfl⟩

/-- Claim C7 counterexample: an Initialize call that fails while creating
image views returns failure but leaves three images and zero image views, so
the invariant does not hold after every failing public operation. -/
theorem swapInv_violated_after_failed_init :
    exceptOk (SwapchainManager.Initialize {} (some ctxGood) (some 1) 800 600 {}
      badViewsScript).1 = false ∧
      ¬ SwapInv (SwapchainManager.Initialize {} (some ctxGood) (some 1) 800 600 {}
        badViewsScript).2.1 := by
  refine ⟨by decide, fun hv => absurd hv.1 (by decide)⟩

/-- Claim C7 (amended): the SwapchainState invariant, one view per image and
both lists empty while the handle is null, holds after every public
operation that succeeds, after Shutdown, and after the const operations
AcquireNextImage and Present; an Initialize or Recreate call failing after
the build stage can instead leave the view count different from the image
count. -/
theorem swapInv_preserved (s : SwapchainManager)
    (context : Option VulkanContext) (surface : Option Nat) (w h : Nat)
    (cfg : SwapchainConfig) (script : SwapScript) (sem t i : Nat)
    (ao : AcqOutcome) (po : PresentOutcome) (hinv : SwapInv s) :
    (exceptOk (s.Initialize context surface w h cfg script).1 = true →
        SwapInv (s.Initialize context surface w h cfg script).2.1) ∧
      (exceptOk (s.Recreate w h script).1 = true →
        SwapInv (s.Recreate w h script).2.1) ∧
      SwapInv s.Shutdown.1 ∧
      SwapInv (s.AcquireNextImage sem t ao).2 ∧
      SwapInv (s.Present i sem po).2 := by
  refine ⟨?_, ?_, ?_, ?_, ?_⟩
  · intro hok
    unfold SwapchainManager.Initialize at hok ⊢
    split_ifs at hok ⊢ <;> simp [exceptOk] at hok ⊢ <;>
      simp [SwapInv, viewsFor]
  · intro hok
    unfold SwapchainManager.Recreate at hok ⊢
    split_ifs at hok ⊢ <;> simp [exceptOk] at hok ⊢ <;>
      simp [SwapInv, viewsFor]
  · unfold SwapchainManager.Shutdown
    by_cases hc : s.mContext.isNone = true
    · simpa [hc] using hinv
    · cases hvk : s.vkbSwapchain <;> simp [hc, hvk, SwapInv]
  · rw [acquire_state_const]
    exact hinv
  · rw [present_state_const]
    exact hinv

/-- Claim C7 witness: the invariant holds on the fresh manager and is kept
by Shutdown. -/
theorem swapInv_preserved_witness :
    SwapInv ({} : SwapchainManager) ∧
      SwapInv (SwapchainManager.Shutdown {}).1 :=
  ⟨⟨rfl, fun _ => ⟨rfl, rfl⟩⟩,
    (swapInv_preserved {} none none 800 600 {} okScript 0 0 0
      AcqOutcome.outOfDate PresentOutcome.success
      ⟨rfl, fun _ => ⟨rfl, rfl⟩⟩).2.2.1⟩

/-- Claim C2 (round-robin, confirmed): after a successful Initialize with N
frames in flight the current frame index is 0, and after any sequence of
frame-loop operations containing k EndFrame calls it equals k mod N; the
advance is unconditional and, among the frame-loop operations BeginFrame,
WaitForFrame, ResetFence and EndFrame, only EndFrame changes the index. -/
theorem roundRobin_endFrame (context : Option VulkanContext) (fif : Nat)
    (oracle : Nat → SlotOracle) (d : Device) (ops : List LoopOp)
    (s' : FrameSynchronizer)
    (hok : exceptOk (FrameSynchronizer.Initialize {} context fif oracle d).1 = true)
    (hrun : runLoop (FrameSynchronizer.Initialize {} context fif oracle d).2.1 ops
      = some s') :
    (FrameSynchronizer.Initialize {} context fif oracle d).2.1.mCurrentFrameIndex
        = 0 ∧
      s'.mCurrentFrameIndex = countEnd ops % fif ∧
      s'.GetFramesInFlight = fif := by
  obtain ⟨hidx0, hlen, hfif1, _, _⟩ := init_ok_facts context fif oracle d hok
  have hmod := runLoop_mod ops _ s'
    (by rw [hlen]; omega) (by rw [hlen, hidx0]; omega) hrun
  refine ⟨hidx0, ?_, ?_⟩
  · rw [hmod.2, hidx0, hlen, Nat.zero_add]
  · rw [FrameSynchronizer.GetFramesInFlight, hmod.1, hlen]

/-- Claim C3 (confirmed): from the fresh state, Initialize fails for every
framesInFlight outside [1,4]; for framesInFlight in [1,4] with a valid
initialized context and fully successful slot creation it succeeds and
produces exactly N slots; and whenever it fails, including when slot
creation fails at some index, after the call returns zero slots remain
allocated: the frames list is empty, IsInitialized() is false, and the set
of live device objects is exactly what it was before the call. -/
theorem frameSyncInit_atomic (context : Option VulkanContext) (fif : Nat)
    (oracle : Nat → SlotOracle) (d : Device) (hWF : Device.WF d) :
    ((fif = 0 ∨ 4 < fif) →
        exceptOk (FrameSynchronizer.Initialize {} context fif oracle d).1 = false) ∧
      ((1 ≤ fif ∧ fif ≤ 4) → ctxOk context = true →
        (∀ i, oracle i = SlotOracle.allOk) →
        exceptOk (FrameSynchronizer.Initialize {} context fif oracle d).1 = true ∧
          (FrameSynchronizer.Initialize {} context fif oracle d).2.1.mFrames.length
            = fif ∧
          (FrameSynchronizer.Initialize {} context fif oracle d).2.1.IsInitialized
            = true) ∧
      (exceptOk (FrameSynchronizer.Initialize {} context fif oracle d).1 = false →
        (FrameSynchronizer.Initialize {} context fif oracle d).2.1.mFrames = [] ∧
          (FrameSynchronizer.Initialize {} context fif oracle d).2.1.IsInitialized
            = false ∧
          (FrameSynchronizer.Initialize {} context fif oracle d).2.2.live = d.live) := by
  refine ⟨?_, ?_, ?_⟩
  · intro hr
    unfold FrameSynchronizer.Initialize
    by_cases hc : ctxOk context = false
    · rw [if_pos hc]
      rfl
    · rw [if_neg hc]
      have hcond : (fif < 1 || fif > 4) = true := by
        simp only [Bool.or_eq_true, decide_eq_true_eq]
        omega
      rw [if_pos hcond]
      rfl
  · intro hrange hctx hall
    have hloop := initLoop_allOk ((List.range fif).map oracle) d []
      (fun o ho => by
        obtain ⟨i, _, rfl⟩ := List.mem_map.mp ho
        exact hall i)
    unfold FrameSynchronizer.Initialize
    rw [if_neg (by simp [hctx])]
    rw [if_neg (by simp only [Bool.or_eq_true, decide_eq_true_eq, not_or]; omega)]
    cases hres : (initLoop d [] ((List.range fif).map oracle)).1 with
    | error e =>
      rw [hres] at hloop
      simp [exceptOk] at hloop
    | ok u =>
      have hlen := initLoop_ok_length ((List.range fif).map oracle) d []
        (by rw [hres]; rfl)
      simp only [hres]
      refine ⟨rfl, by simpa using hlen, ?_⟩
      cases context with
      | none => simp [ctxOk] at hctx
      | some c =>
        cases hfr : (initLoop d [] ((List.range fif).map oracle)).2.1 with
        | nil =>
          rw [hfr] at hlen
          simp at hlen
          omega
        | cons a l => simp [FrameSynchronizer.IsInitialized, hfr]
  · intro herr
    unfold FrameSynchronizer.Initialize at herr ⊢
    by_cases hc : ctxOk context = false
    · rw [if_pos hc] at herr ⊢
      exact ⟨rfl, rfl, rfl⟩
    · rw [if_neg hc] at herr ⊢
      by_cases hf : (fif < 1 || fif > 4) = true
      · rw [if_pos hf] at herr ⊢
        exact ⟨rfl, rfl, rfl⟩
      · rw [if_neg hf] at herr ⊢
        cases hres : (initLoop d [] ((List.range fif).map oracle)).1 with
        | ok u =>
          simp only [hres, exceptOk] at herr
          exact absurd herr (by simp)
        | error e =>
          have hspec := initLoop_error_spec ((List.range fif).map oracle) d []
            d.live hWF (by simp [framesHs]) (by simp [framesHs])
            (by rw [hres]; rfl)
          simp only [hres]
          exact ⟨trivial, by simp [FrameSynchronizer.IsInitialized], hspec.2⟩

/-- Claim C3 witness: two frames in flight with all slot creations
succeeding. -/
theorem frameSyncInit_atomic_witness :
    Device.WF d0 ∧ (1 ≤ 2 ∧ 2 ≤ 4) ∧ ctxOk (some ctxGood) = true ∧
      (exceptOk (FrameSynchronizer.Initialize {} (some ctxGood) 2 oracleAllOk d0).1
          = true ∧
        (FrameSynchronizer.Initialize {} (some ctxGood) 2 oracleAllOk
          d0).2.1.mFrames.length = 2 ∧
        (FrameSynchronizer.Initialize {} (some ctxGood) 2 oracleAllOk
          d0).2.1.IsInitialized = true) :=
  ⟨d0_WF, by omega, rfl,
    (frameSyncInit_atomic (some ctxGood) 2 oracleAllOk d0 d0_WF).2.1
      (by omega) rfl (fun _ => rfl)⟩

/-- Claim C4 counterexample: in SwapchainManager::Initialize, when image view
creation fails, the swapchain built earlier in the same call is not torn
down before the failure is returned: the manager still holds it and the
lifecycle trace contains its build but no destroy. -/
theorem swapchainInit_retains_swapchain_on_view_failure :
    exceptOk (SwapchainManager.Initialize {} (some ctxGood) (some 1) 800 600 {}
        badViewsScript).1 = false ∧
      (SwapchainManager.Initialize {} (some ctxGood) (some 1) 800 600 {}
        badViewsScript).2.1.vkbSwapchain = some 7 ∧
      (SwapchainManager.Initialize {} (some ctxGood) (some 1) 800 600 {}
        badViewsScript).2.2 = [SwapEvent.buildNew 7, SwapEvent.getImages] := by
  refine ⟨by decide, by decide, by decide⟩

/-- Claim C4 (amended): in FrameSynchronizer::CreateFrameContext, every
object created earlier in the call is torn down before a failure is
returned, so the live set is unchanged; but in SwapchainManager::Initialize
and SwapchainManager::Recreate a failure after the build stage (fetching
images or creating views) returns failure while retaining the already built
swapchain in the manager: no destroy of it is issued before returning, the
only swapchain a failing Recreate ever destroys being the previous one. -/
theorem noLeak_on_partial_failure :
    (∀ (o : SlotOracle) (dv : Device), Device.WF dv →
        exceptOk (CreateFrameContext o dv).1 = false →
        (CreateFrameContext o dv).2.live = dv.live) ∧
      (∀ (s : SwapchainManager) (context : Option VulkanContext)
          (surface : Option Nat) (w h : Nat) (cfg : SwapchainConfig)
          (script : SwapScript),
        ctxOk context = true → surface.isNone = false →
        (w == 0 || h == 0) = false → script.build.buildOk = true →
        (script.imagesOk = false ∨ script.viewsOk = false) →
        exceptOk (s.Initialize context surface w h cfg script).1 = false ∧
          (s.Initialize context surface w h cfg script).2.1.vkbSwapchain
            = some script.build.handle ∧
          (∀ x, SwapEvent.destroyOld x ∉ (s.Initialize context surface w h cfg
            script).2.2)) ∧
      (∀ (s : SwapchainManager) (w h : Nat) (script : SwapScript),
        s.mContext.isNone = false → (w == 0 || h == 0) = false →
        script.build.buildOk = true →
        (script.imagesOk = false ∨ script.viewsOk = false) →
        exceptOk (s.Recreate w h script).1 = false ∧
          (s.Recreate w h script).2.1.vkbSwapchain
            = some script.build.handle ∧
          (∀ x, SwapEvent.destroyOld x ∈ (s.Recreate w h script).2.2 →
            s.vkbSwapchain = some x)) := by
  refine ⟨?_, ?_, ?_⟩
  · exact fun o dv hWF herr => createFrameContext_error_live o dv hWF herr
  · intro s context surface w h cfg script hctx hsurf hdims hbuild hfail
    unfold SwapchainManager.Initialize
    rw [if_neg (by simp [hctx])]
    rw [if_neg (by simp [hsurf])]
    rw [if_neg (by simp [hdims])]
    rw [if_neg (by simp [hbuild])]
    by_cases himg : script.imagesOk = false
    · rw [if_pos himg]
      refine ⟨rfl, rfl, ?_⟩
      intro x
      simp
    · rw [if_neg himg]
      have hview : script.viewsOk = false := by
        rcases hfail with hf | hf
        · exact absurd hf himg
        · exact hf
      rw [if_pos hview]
      refine ⟨rfl, rfl, ?_⟩
      intro x
      simp
  · intro s w h script hctx hdims hbuild hfail
    unfold SwapchainManager.Recreate
    rw [if_neg (by simp [hctx])]
    rw [if_neg (by simp [hdims])]
    rw [if_neg (by simp [hbuild])]
    cases hvk : s.vkbSwapchain with
    | some old =>
      by_cases himg : script.imagesOk = false
      · rw [if_pos himg]
        refine ⟨rfl, rfl, ?_⟩
        intro x hx
        simp at hx
        rw [hx]
      · rw [if_neg himg]
        have hview : script.viewsOk = false := by
          rcases hfail with hf | hf
          · exact absurd hf himg
          · exact hf
        rw [if_pos hview]
        refine ⟨rfl, rfl, ?_⟩
        intro x hx
        simp at hx
        rw [hx]
    | none =>
      by_cases himg : script.imagesOk = false
      · rw [if_pos himg]
        refine ⟨rfl, rfl, ?_⟩
        intro x hx
        simp at hx
      · rw [if_neg himg]
        have hview : script.viewsOk = false := by
          rcases hfail with hf | hf
          · exact absurd hf himg
          · exact hf
        rw [if_pos hview]
        refine ⟨rfl, rfl, ?_⟩
        intro x hx
        simp at hx

/-- Claim C4 witness: a slot whose render finished semaphore fails to build
leaves the device live set unchanged. -/
theorem noLeak_on_partial_failure_witness :
    Device.WF d0 ∧
      exceptOk (CreateFrameContext oracleSem2Fails d0).1 = false ∧
      (CreateFrameContext oracleSem2Fails d0).2.live = d0.live :=
  ⟨d0_WF, by decide,
    noLeak_on_partial_failure.1 oracleSem2Fails d0 d0_WF (by decide)⟩

/-- Claim C2 witness: two frames in flight, three EndFrame calls, final index
3 mod 2 = 1. -/
theorem roundRobin_endFrame_witness :
    exceptOk (FrameSynchronizer.Initialize {} (some ctxGood) 2 oracleAllOk d0).1
        = true ∧
      runLoop (FrameSynchronizer.Initialize {} (some ctxGood) 2 oracleAllOk d0).2.1
        [LoopOp.endFrame, LoopOp.endFrame, LoopOp.endFrame]
        = some { fsReady with mCurrentFrameIndex := 1 } ∧
      ({ fsReady with mCurrentFrameIndex := 1 }).mCurrentFrameIndex =
        countEnd [LoopOp.endFrame, LoopOp.endFrame, LoopOp.endFrame] % 2 :=
  ⟨by decide, by decide,
    (roundRobin_endFrame (some ctxGood) 2 oracleAllOk d0
      [LoopOp.endFrame, LoopOp.endFrame, LoopOp.endFrame]
      { fsReady with mCurrentFrameIndex := 1 } (by decide) (by decide)).2.1⟩

/-- Claim C5 (recreate ordering, confirmed): in every successful Recreate
from a state holding a swapchain, the previous swapchain is passed to the
builder as the recreation hint, the hint precedes the build, the new
swapchain is built, and becomes the live handle, before the previous one is
destroyed, and at every point of the call at least one swapchain is
alive. -/
theorem recreate_ordering (s : SwapchainManager) (w h : Nat)
    (script : SwapScript) (old : Nat)
    (hvk : s.vkbSwapchain = some old)
    (hnew : script.build.handle ≠ old)
    (hok : exceptOk (s.Recreate w h script).1 = true) :
    SwapEvent.hintOld old ∈ (s.Recreate w h script).2.2 ∧
      eventBefore (s.Recreate w h script).2.2 (SwapEvent.hintOld old)
        (SwapEvent.buildNew script.build.handle) ∧
      eventBefore (s.Recreate w h script).2.2
        (SwapEvent.buildNew script.build.handle) (SwapEvent.destroyOld old) ∧
      (s.Recreate w h script).2.1.mSwapchain = some script.build.handle ∧
      (∀ k, liveAfterEvents [old] ((s.Recreate w h script).2.2.take k) ≠ []) := by
  have htr : (s.Recreate w h script).2.2 =
      [SwapEvent.waitIdle, SwapEvent.destroyImageViews, SwapEvent.hintOld old,
        SwapEvent.buildNew script.build.handle, SwapEvent.destroyOld old,
        SwapEvent.getImages, SwapEvent.createViews] ∧
      (s.Recreate w h script).2.1.mSwapchain = some script.build.handle := by
    unfold SwapchainManager.Recreate at hok ⊢
    by_cases hc : s.mContext.isNone = true
    · rw [if_pos hc] at hok
      simp [exceptOk] at hok
    · rw [if_neg hc] at hok ⊢
      by_cases hd : (w == 0 || h == 0) = true
      · rw [if_pos hd] at hok
        simp [exceptOk] at hok
      · rw [if_neg hd] at hok ⊢
        rw [hvk] at hok ⊢
        by_cases hb : script.build.buildOk = false
        · rw [if_pos hb] at hok
          simp [exceptOk] at hok
        · rw [if_neg hb] at hok ⊢
          by_cases hi : script.imagesOk = false
          · rw [if_pos hi] at hok
            simp [exceptOk] at hok
          · rw [if_neg hi] at hok ⊢
            by_cases hv : script.viewsOk = false
            · rw [if_pos hv] at hok
              simp [exceptOk] at hok
            · rw [if_neg hv]
              exact ⟨rfl, rfl⟩
  obtain ⟨htrace, hswap⟩ := htr
  rw [htrace]
  refine ⟨by simp, ⟨2, 3, by omega, rfl, rfl⟩, ⟨3, 4, by omega, rfl, rfl⟩,
    hswap, ?_⟩
  intro k
  rcases k with _ | _ | _ | _ | _ | _ | _ | k <;>
    simp [liveAfterEvents, List.take, List.erase_cons, hnew]

/-- Claim C5 witness: recreating a concrete three-image swapchain at a new
extent, with a fresh handle. -/
theorem recreate_ordering_witness :
    swapReady.vkbSwapchain = some 5 ∧ okScript2.build.handle ≠ 5 ∧
      exceptOk (swapReady.Recreate 1024 768 okScript2).1 = true ∧
      SwapEvent.hintOld 5 ∈ (swapReady.Recreate 1024 768 okScript2).2.2 :=
  ⟨by decide, by decide, by decide,
    (recreate_ordering swapReady 1024 768 okScript2 5 (by decide) (by decide)
      (by decide)).1⟩

end Vulkano
